import Mathlib

/-!
Verification of the session-synchronized WhatsApp webhook pipeline.

This file shallowly embeds the JavaScript source of the repository:
  * `sessionManager.js` — the durable session store (`readSessions`,
    `writeSessions`, `getSessionId`, `generateSessionId`, `uploadFile`,
    `downloadFile`);
  * the webhook Cloud Function (`WAwebhook`) with its HMAC signature
    verifier (`verifySignature`) and reply-sanitization pipeline;
  * the outbound notification endpoint family (`newLead`, `newAccident`,
    `newTech`, `newCom`), modelled once via `newLead`.

External collaborators (Node `crypto`, the Cloud Storage SDK, the AI
backend, axios transports) are modelled at their interface boundary:
their outcomes are parameters of the embedding, and JavaScript
exceptions are an explicit `JsError` value threaded through `Except`.
-/

/-- JavaScript runtime exceptions relevant to the embedded code.
`typeError` arises e.g. from calling a method on `undefined`;
`rangeError` is what `crypto.timingSafeEqual` throws when the two
buffers differ in length; `apiError c` is a Google Cloud `ApiError`
carrying the numeric HTTP status `c` (its `code` property is a number);
`fsError c` is a Node `fs` error whose `code` property is the string
`c` (e.g. `"ENOENT"`); `generic` stands for any other rejection
(AI backend or axios transport failures). -/
inductive JsError where
  | typeError
  | rangeError
  | apiError (code : Nat)
  | fsError (code : String)
  | generic (msg : String)
deriving DecidableEq, Repr

/-- The session mapping `{ phone: sessionId }`, a JS object embedded as
an association list in insertion order with unique keys.  (JS enumerates
integer-like keys numerically first; none of the properties proved below
depend on enumeration order, because they carry a freshness hypothesis
that makes the matching entry unique.) -/
abbrev Mapping : Type := List (String × String)

/-- JS property read `sessions[userId]`: `none` models `undefined`. -/
def Mapping.lookup (m : Mapping) (k : String) : Option String :=
  (List.find? (fun p => p.1 == k) m).map (fun p => p.2)

/-- JS property write `sessions[userId] = v`: overwrites in place if the
key exists, otherwise appends a new entry. -/
def Mapping.setKey (m : Mapping) (k v : String) : Mapping :=
  match m with
  | [] => [(k, v)]
  | (k1, v1) :: rest =>
      if k1 == k then (k1, v) :: rest
      else (k1, v1) :: Mapping.setKey rest k v

/-- The values of the mapping (`Object.values`). -/
def Mapping.values (m : Mapping) : List String := m.map (fun p => p.2)

/-- JS truthiness test `!sessions[userId]` on a property read:
`undefined` and the empty string are falsy, every other string truthy. -/
def jsFalsy : Option String → Bool
  | none => true
  | some v => v == ""

/-- JS `String.prototype.replace` with a *string* pattern: replaces only
the first occurrence of `pat` (here always deleted, as in
`signature.replace('sha256=', '')`). -/
def replaceFirst (pat : List Char) : List Char → List Char
  | [] => []
  | c :: rest =>
      if pat.isPrefixOf (c :: rest) then List.drop pat.length (c :: rest)
      else c :: replaceFirst pat rest

/-- `verifySignature(payload, signature, secret)` from the webhook file.

`signature` is the raw header value, `undefined` when the header is
absent (then `signature.replace` throws a `TypeError`).  `hmacHex` is
the external boundary for
`crypto.createHmac('sha256', secret).update(payload, 'utf8').digest('hex')`,
a function of the secret and the payload.  `crypto.timingSafeEqual`
throws a `RangeError` when `Buffer.from(hmacReceived, 'utf8')` and
`Buffer.from(digest, 'utf8')` differ in byte length; on equal length it
returns byte-wise equality, which (UTF-8 being injective) is string
equality. -/
def verifySignature (payload : String) (signature : Option String)
    (secret : String) (hmacHex : String → String → String) :
    Except JsError Bool :=
  match signature with
  | none => .error .typeError
  | some sig =>
      let hmacReceived : String := ⟨replaceFirst "sha256=".data sig.data⟩
      let digest := hmacHex secret payload
      if hmacReceived.utf8ByteSize = digest.utf8ByteSize then
        .ok (hmacReceived == digest)
      else
        .error .rangeError

/-- `downloadFile()` from `sessionManager.js`, at the Cloud Storage
boundary.  `remote` is the current content of the `sessions.json`
object in the bucket (`none` = the object does not exist).  The SDK
call `storage.bucket(..).file('sessions.json').download(..)` rejects
with an `ApiError` "No such object" whose `code` property is the number
404 when the object is missing; `downloadFile`'s `catch` logs the error
and re-throws it. -/
def downloadFile (remote : Option Mapping) : Except JsError Mapping :=
  match remote with
  | some m => .ok m
  | none => .error (.apiError 404)

/-- The test `err.code === 'ENOENT'` in the `catch` of `readSessions`:
it matches only a Node `fs` error with string code `"ENOENT"`, never a
Cloud Storage `ApiError` (whose code is a number). -/
def isEnoent : JsError → Bool
  | .fsError c => c == "ENOENT"
  | _ => false

/-- `readSessions()` from `sessionManager.js` (the same function is
duplicated in each notification endpoint): downloads the remote
snapshot, then reads and parses the local file.  When the download
succeeded the just-written local file parses back to the same mapping;
when anything threw, the `catch` returns `{}` only for `ENOENT` and
re-throws every other error. -/
def readSessions (remote : Option Mapping) : Except JsError Mapping :=
  match downloadFile remote with
  | .ok m => .ok m
  | .error e => if isEnoent e then .ok ([] : Mapping) else .error e

/-- `uploadFile()` from `sessionManager.js`: `try { await
storage.bucket(..).upload(..) } catch (err) { console.error(..) }` —
the catch swallows the storage error, so the promise always resolves.
`uploadOutcome` is the outcome of the underlying SDK call. -/
def uploadFile (uploadOutcome : Except JsError Unit) : Except JsError Unit :=
  match uploadOutcome with
  | .ok u => .ok u
  | .error _ => .ok ()

/-- `writeSessions(sessions)` from `sessionManager.js`: `try {
fs.writeFileSync(..); await uploadFile() } catch (err) {
console.error('Error writing sessions:', err) }`.  `writeOutcome` is
the outcome of the local `writeFileSync`, `uploadOutcome` that of the
SDK upload inside `uploadFile`.  Every failure is caught and only
logged. -/
def writeSessions (writeOutcome uploadOutcome : Except JsError Unit) :
    Except JsError Unit :=
  match writeOutcome with
  | .error _ => .ok ()
  | .ok _ =>
      match uploadFile uploadOutcome with
      | .error _ => .ok ()
      | .ok _ => .ok ()

/-- The effect of `writeSessions m` on the remote object: the new
snapshot lands in the bucket only when both the local write and the
upload succeed; otherwise the bucket keeps its previous content. -/
def writeSessionsRemote (writeOutcome uploadOutcome : Except JsError Unit)
    (m : Mapping) (remote : Option Mapping) : Option Mapping :=
  match writeOutcome with
  | .error _ => remote
  | .ok _ =>
      match uploadOutcome with
      | .ok _ => some m
      | .error _ => remote

/-- `generateSessionId(userId)` from `sessionManager.js`:
`` `${randomString}-${timestamp}-${hash}-whatsapp` `` where
`randomString` comes from `Math.random`, `timestamp` from `Date.now()`
(both external inputs here) and `hash` is the hex SHA-256 digest of
their concatenation with the user id (`hashHex` is the CryptoJS
boundary). -/
def generateSessionId (hashHex : String → String)
    (userId randomString timestamp : String) : String :=
  randomString ++ "-" ++ timestamp ++ "-" ++
    hashHex (userId ++ randomString ++ timestamp) ++ "-whatsapp"

instance {ε α : Type} [DecidableEq ε] [DecidableEq α] :
    DecidableEq (Except ε α) := fun a b =>
  match a, b with
  | Except.ok x, Except.ok y =>
      if h : x = y then Decidable.isTrue (congrArg Except.ok h)
      else Decidable.isFalse (fun hc => h (Except.ok.inj hc))
  | Except.error x, Except.error y =>
      if h : x = y then Decidable.isTrue (congrArg Except.error h)
      else Decidable.isFalse (fun hc => h (Except.error.inj hc))
  | Except.ok _, Except.error _ => Decidable.isFalse (fun hc => Except.noConfusion hc)
  | Except.error _, Except.ok _ => Decidable.isFalse (fun hc => Except.noConfusion hc)

/-- Result of one `getSessionId` call: the returned promise outcome,
the remote bucket content afterwards, and whether `writeSessions` was
invoked at all. -/
structure StoreResult where
  result : Except JsError String
  remote : Option Mapping
  wrote : Bool
deriving DecidableEq, Repr

/-- `getSessionId(userId)` from `sessionManager.js`:
reads the sessions (propagating any error), tests `!sessions[userId]`
(JS falsiness), and on a miss assigns
`sessions[userId] = generateSessionId(userId)`, calls
`writeSessions(sessions)` (not awaited; its synchronous local write and
eventual upload are accounted for in `remote`), and returns
`sessions[userId]`, which is the freshly assigned id.  On a hit it
returns the stored id without writing. -/
def getSessionId (userId : String) (hashHex : String → String)
    (randomString timestamp : String)
    (writeOutcome uploadOutcome : Except JsError Unit)
    (remote : Option Mapping) : StoreResult :=
  match readSessions remote with
  | .error e => ⟨.error e, remote, false⟩
  | .ok sessions =>
      if jsFalsy (Mapping.lookup sessions userId) then
        let sessionId := generateSessionId hashHex userId randomString timestamp
        let sessions1 := Mapping.setKey sessions userId sessionId
        ⟨.ok sessionId,
         writeSessionsRemote writeOutcome uploadOutcome sessions1 remote,
         true⟩
      else
        ⟨.ok ((Mapping.lookup sessions userId).getD ""), remote, false⟩

/-- `Object.keys(obj).find(key => obj[key] === sessionId)` from the
notification endpoints: the reverse lookup of a session id.
`sessionId` is the `X-SESSION` query parameter, `undefined` when
absent; strict equality of a string property value with `undefined` is
always false. -/
def reverseResolve (m : Mapping) (sessionId : Option String) : Option String :=
  (List.find? (fun p =>
      match sessionId with
      | some s => p.2 == s
      | none => false) m).map (fun p => p.1)

/-- A quote character for the regex class `["']`. -/
def isQuote (c : Char) : Bool := c == '"' || c == '\''

/-- JS `String.prototype.trim`: whitespace stripped from both ends
(modelled with `Char.isWhitespace`; both the code and the amended
reading of the spec apply the identical trim, so the exact whitespace
class is immaterial to the claims below). -/
def jsTrim (s : List Char) : List Char :=
  ((s.dropWhile Char.isWhitespace).reverse.dropWhile Char.isWhitespace).reverse

/-- Drops the final character when it is a quote: the only way the
anchored alternative `["']$` of the regex can fire during the
left-to-right scan. -/
def dropFinalQuote (l : List Char) : List Char :=
  match l.getLast? with
  | some c => if isQuote c then l.dropLast else l
  | none => l

/-- `text.replace(/^["']|["']$/g, '')`: the engine first tries `^["']`
at position 0 (consuming the opening quote when present), then keeps
scanning, where only `["']$` can still match — at the final position.
When the string is a single quote character, the first alternative
consumes it and nothing is left for the second. -/
def stripQuotesRegex (s : List Char) : List Char :=
  match s with
  | [] => []
  | c :: rest => if isQuote c then dropFinalQuote rest else dropFinalQuote (c :: rest)

/-- The full reply sanitization of the webhook:
`text.replace(/\\/g, '')` (all backslashes removed) followed by
`text.trim().replace(/^["']|["']$/g, '')`. -/
def sanitize (s : String) : String :=
  ⟨stripQuotesRegex (jsTrim (s.data.filter (fun c => c ≠ '\\')))⟩

/-- Spec reading of the quote stripping, stated sequentially: remove
one leading quote character if present. -/
def stripLeadingQuoteSpec (l : List Char) : List Char :=
  match l with
  | [] => []
  | c :: rest => if isQuote c then rest else c :: rest

/-- Spec reading, second step: remove one trailing quote character if
present (phrased from the right, independently of `dropFinalQuote`). -/
def stripTrailingQuoteSpec (l : List Char) : List Char :=
  match l.reverse with
  | [] => l
  | c :: rest => if isQuote c then rest.reverse else l

/-- The sanitization as the spec words it: remove every backslash, then
trim whitespace, then drop one leading and one trailing quote. -/
def sanitizeSpec (s : String) : String :=
  ⟨stripTrailingQuoteSpec (stripLeadingQuoteSpec
      (jsTrim (s.data.filter (fun c => c ≠ '\\'))))⟩

/-- One outbound templated WhatsApp message as handed to
`axios.post(apiUrl, messageData, ..)` by a notification endpoint:
`to_` is the `to:` field, `params` the ordered template body parameters
(`none` models a JS `undefined` passed through). -/
structure TemplateMsg where
  to_ : String
  templateName : String
  language : String
  params : List (Option String)
deriving DecidableEq, Repr

/-- Outcome of one notification-endpoint request: the JSON
`fulfillmentText` answered to the caller, and the templated message
handed to the transport (`none` when the `try` block threw before the
`axios.post` call). -/
structure LeadOut where
  fulfillmentText : String
  sent : Option TemplateMsg
deriving DecidableEq, Repr

/-- The `newLead` Cloud Function (the notification endpoint family,
whose members differ only in template name and field list).
`sessionId` is `req.query['X-SESSION']`; `envPhoneNumber` is the
configured `process.env.PHONE_NUMBER` used as the `to:` destination;
`name .. location` are the request-body fields.  `readSessions` may
throw (caught: failure text, nothing sent); otherwise the resolved
phone number is embedded as the third template parameter and the
message is posted fire-and-forget (its own `.catch` only logs). -/
def newLead (sessionId : Option String)
    (name company surface period location : String)
    (envPhoneNumber : String) (remote : Option Mapping) : LeadOut :=
  match readSessions remote with
  | .error _ => ⟨"Failed to create the request, please contact support.", none⟩
  | .ok obj =>
      let phoneNumber := reverseResolve obj sessionId
      ⟨"Your request has been successfully created, please wait, we will contact you soon.",
       some ⟨envPhoneNumber, "new_lead_notification", "ru",
             [some name, some company, phoneNumber,
              some surface, some period, some location]⟩⟩

/-- The single inbound message extracted from the webhook envelope
(`req.body.entry?.[0]?.changes?.[0]?.value?.messages?.[0]`), with the
fields the handler uses: `from`, `type`, `text.body`, `id`. -/
structure Message where
  from_ : String
  type_ : String
  textBody : String
  id : String
deriving DecidableEq, Repr

/-- An inbound HTTP request to the webhook endpoint.  `message` is the
result of the optional chain above (`none` = no message in the
envelope); `rawBody` is `req.rawBody`; `signatureHeader` is
`req.headers['x-hub-signature-256']` (`none` = header absent); the
`hub*` fields are the `GET` verification query parameters. -/
structure Req where
  method : String
  message : Option Message
  phoneNumberId : String
  rawBody : String
  signatureHeader : Option String
  hubMode : Option String
  hubVerifyToken : Option String
  hubChallenge : Option String
deriving DecidableEq, Repr

/-- The configuration read from `process.env`, plus the HMAC boundary
of Node `crypto` (a function of secret and payload). -/
structure Env where
  appSecret : String
  webhookVerifyToken : String
  chatId : String
  testId : String
  hmacHex : String → String → String

/-- Outcomes of the external calls a single webhook invocation can
make, plus the inputs of the session-id generator for this invocation:
`ai` is the Dialogflow reply (`main(message.text.body, sessionId,
userId)`), `replyOutcome` the Graph-API reply delivery, `readOutcome`
the read-receipt mark, `tg*` the two Telegram posts (their failures are
caught inside `sendMessage` and never escape). -/
structure World where
  hashHex : String → String
  randomString : String
  timestamp : String
  writeOutcome : Except JsError Unit
  uploadOutcome : Except JsError Unit
  ai : Except JsError String
  replyOutcome : Except JsError Unit
  readOutcome : Except JsError Unit
  tgMain : Except JsError Unit
  tgTest : Except JsError Unit

/-- The observable external effects of one webhook invocation, in
program order. -/
inductive Effect where
  | storeDownload
  | storeUpload
  | aiCall (text sessionId userId : String)
  | transportReply (dest body : String)
  | transportRead (messageId : String)
  | telegramSend (chatId text : String)
deriving DecidableEq, Repr

/-- The HTTP response the handler produced: `res.sendStatus c` is
`status c none`, `res.status(c).send(b)` is `status c (some b)`. -/
inductive Resp where
  | status (code : Nat) (body : Option String)
deriving DecidableEq, Repr

/-- Result of one webhook invocation: the response sent (`none` when no
`res` method was ever called), the effect trace, and the remote bucket
content afterwards. -/
structure HandlerOut where
  response : Option Resp
  effects : List Effect
  remote : Option Mapping
deriving DecidableEq, Repr

/-- The transcript text sent to Telegram:
`` `${message.from} \n Пользователь: ${message.text.body} \n\n Ответ: ${text}` ``. -/
def notifText (msg : Message) (text : String) : String :=
  msg.from_ ++ " \n Пользователь: " ++ msg.textBody ++ " \n\n Ответ: " ++ text

/-- The `WAwebhook` Cloud Function.  Dispatch: `POST` requests handle
message delivery (an absent message or a non-text kind is acknowledged
with 200; a text message runs the signature check, session resolution,
AI call, reply delivery, read-receipt mark and the two Telegram posts
inside one `try` whose `catch` answers 500); `GET` requests run the
subscription-verification handshake; any other method falls through
both branches and no response is ever sent. -/
def WAwebhook (req : Req) (env : Env) (w : World)
    (remote : Option Mapping) : HandlerOut :=
  if req.method == "POST" then
    match req.message with
    | none => ⟨some (.status 200 none), [], remote⟩
    | some msg =>
      if msg.type_ == "text" then
        match verifySignature req.rawBody req.signatureHeader env.appSecret env.hmacHex with
        | .error _ => ⟨some (.status 500 none), [], remote⟩
        | .ok false => ⟨some (.status 403 (some "Unexpected request")), [], remote⟩
        | .ok true =>
          let sr := getSessionId msg.from_ w.hashHex w.randomString w.timestamp
                      w.writeOutcome w.uploadOutcome remote
          let storeEffects := Effect.storeDownload ::
            (if sr.wrote then [Effect.storeUpload] else [])
          match sr.result with
          | .error _ => ⟨some (.status 500 none), storeEffects, sr.remote⟩
          | .ok sessionId =>
            let aiEff := Effect.aiCall msg.textBody sessionId msg.from_
            match w.ai with
            | .error _ => ⟨some (.status 500 none), storeEffects ++ [aiEff], sr.remote⟩
            | .ok reply =>
              let text := sanitize reply
              let replyEff := Effect.transportReply msg.from_ text
              match w.replyOutcome with
              | .error _ =>
                  ⟨some (.status 500 none), storeEffects ++ [aiEff, replyEff], sr.remote⟩
              | .ok _ =>
                let readEff := Effect.transportRead msg.id
                match w.readOutcome with
                | .error _ =>
                    ⟨some (.status 500 none),
                     storeEffects ++ [aiEff, replyEff, readEff], sr.remote⟩
                | .ok _ =>
                    ⟨some (.status 200 none),
                     storeEffects ++ [aiEff, replyEff, readEff,
                       Effect.telegramSend env.chatId (notifText msg text),
                       Effect.telegramSend env.testId (notifText msg text)],
                     sr.remote⟩
      else ⟨some (.status 200 none), [], remote⟩
  else if req.method == "GET" then
    if req.hubMode == some "subscribe" &&
       req.hubVerifyToken == some env.webhookVerifyToken then
      ⟨some (.status 200 req.hubChallenge), [], remote⟩
    else
      ⟨some (.status 403 none), [], remote⟩
  else
    ⟨none, [], remote⟩

/-! ### Helper lemmas about the store and the sanitizer -/

lemma setKey_of_lookup_none (m : Mapping) (k v : String)
    (h : Mapping.lookup m k = none) :
    Mapping.setKey m k v = m ++ [(k, v)] := by
  induction m with
  | nil => rfl
  | cons p rest ih =>
      obtain ⟨k1, v1⟩ := p
      by_cases hk : (k1 == k) = true
      · exfalso
        simp [Mapping.lookup, List.find?_cons_of_pos, hk] at h
      · have hk' : (k1 == k) = false := by
          simpa using hk
        have hrest : Mapping.lookup rest k = none := by
          simpa [Mapping.lookup, List.find?_cons_of_neg, hk'] using h
        simp [Mapping.setKey, hk', ih hrest]

lemma find?_value_append_fresh (m : Mapping) (k v : String)
    (hfresh : v ∉ Mapping.values m) :
    List.find? (fun p => p.2 == v) (m ++ [(k, v)]) = some (k, v) := by
  induction m with
  | nil => simp
  | cons p rest ih =>
      simp only [Mapping.values, List.map_cons, List.mem_cons, not_or] at hfresh
      obtain ⟨h1, h2⟩ := hfresh
      have hne : (p.2 == v) = false := by
        simpa using fun hc => h1 hc.symm
      simp only [List.cons_append, List.find?_cons, hne]
      exact ih h2

lemma reverseResolve_append_fresh (m : Mapping) (k v : String)
    (hfresh : v ∉ Mapping.values m) :
    reverseResolve (m ++ [(k, v)]) (some v) = some k := by
  have hstep : reverseResolve (m ++ [(k, v)]) (some v) =
      (List.find? (fun p : String × String => p.2 == v) (m ++ [(k, v)])).map
        (fun p => p.1) := rfl
  rw [hstep, find?_value_append_fresh m k v hfresh]
  rfl

lemma generateSessionId_ne_empty (hashHex : String → String)
    (userId randomString timestamp : String) :
    generateSessionId hashHex userId randomString timestamp ≠ "" := by
  intro h
  have hlen := congrArg String.length h
  simp only [generateSessionId, String.length_append] at hlen
  have h1 : ("-" : String).length = 1 := rfl
  have h2 : ("-whatsapp" : String).length = 9 := rfl
  have h3 : ("" : String).length = 0 := rfl
  omega

lemma dropFinalQuote_eq_spec (l : List Char) :
    dropFinalQuote l = stripTrailingQuoteSpec l := by
  induction l using List.reverseRecOn with
  | nil => rfl
  | append_singleton xs x ih =>
      by_cases hq : isQuote x = true
      · simp [dropFinalQuote, stripTrailingQuoteSpec, List.getLast?_concat,
              List.reverse_append, hq, List.dropLast_concat]
      · simp [dropFinalQuote, stripTrailingQuoteSpec, List.getLast?_concat,
              List.reverse_append, hq, List.dropLast_concat]

lemma stripQuotesRegex_eq_spec (l : List Char) :
    stripQuotesRegex l = stripTrailingQuoteSpec (stripLeadingQuoteSpec l) := by
  cases l with
  | nil => rfl
  | cons c rest =>
      by_cases hq : isQuote c = true
      · simp [stripQuotesRegex, stripLeadingQuoteSpec, hq, dropFinalQuote_eq_spec]
      · simp [stripQuotesRegex, stripLeadingQuoteSpec, hq, dropFinalQuote_eq_spec]

/-! ### Concrete fixtures used by witnesses and counterexamples -/

/-- A concrete environment whose HMAC boundary returns the digest
`"aa"` for every input (real digests are 64 hex characters; only the
relative lengths of header and digest matter to the claims below). -/
def envA : Env := ⟨"secret", "vtok", "chat", "test", fun _ _ => "aa"⟩

/-- A concrete inbound text message from user `111`. -/
def msgA : Message := ⟨"111", "text", "Hello", "mid"⟩

/-- A POST delivery of `msgA` whose signature header matches the
recomputed digest of `envA`. -/
def reqSigned : Req := ⟨"POST", some msgA, "pnid", "raw", some "sha256=aa", none, none, none⟩

/-- A POST delivery of `msgA` whose signature header has the right
length but the wrong content. -/
def reqBadSig : Req := ⟨"POST", some msgA, "pnid", "raw", some "sha256=zz", none, none, none⟩

/-- A world in which every external call succeeds: the generator input
is `r`/`t` with digest `h`, the AI backend answers `"reply"`, and the
store, transport and Telegram calls all resolve. -/
def wOk : World := ⟨fun _ => "h", "r", "t", .ok (), .ok (), .ok "reply", .ok (), .ok (), .ok (), .ok ()⟩

/-- Like `wOk` but the read-receipt transport call rejects. -/
def wReadFail : World := ⟨fun _ => "h", "r", "t", .ok (), .ok (), .ok "reply", .ok (), .error (.generic "socket hang up"), .ok (), .ok ()⟩

/-- Like `wOk` but the Cloud Storage upload inside `uploadFile`
rejects with a 503 `ApiError`. -/
def wUpFail : World := ⟨fun _ => "h", "r", "t", .ok (), .error (.apiError 503), .ok "reply", .ok (), .ok (), .ok (), .ok ()⟩

/-! ### The claims -/

/-- C1: for every inbound POST delivery of a text message whose
signature fails verification (the verifier returns `false`), the
handler answers 403 "Unexpected request", produces no external effect
at all — no store download or upload, no AI call, no transport call —
and the remote store content is exactly what it was before. -/
theorem C1_invalid_signature_rejected_without_effects
    (req : Req) (env : Env) (w : World) (remote : Option Mapping)
    (msg : Message)
    (hm : req.method = "POST") (hmsg : req.message = some msg)
    (ht : msg.type_ = "text")
    (hv : verifySignature req.rawBody req.signatureHeader env.appSecret env.hmacHex
            = .ok false) :
    WAwebhook req env w remote =
      ⟨some (.status 403 (some "Unexpected request")), [], remote⟩ := by
  unfold WAwebhook
  simp [hm, hmsg, ht, hv]

/-- Witness for C1 at a concrete request: equal-length header `zz`
against digest `aa`. -/
theorem C1_witness :
    WAwebhook reqBadSig envA wOk (some [("222", "x")]) =
      ⟨some (.status 403 (some "Unexpected request")), [], some [("222", "x")]⟩ :=
  C1_invalid_signature_rejected_without_effects reqBadSig envA wOk
    (some [("222", "x")]) msgA rfl rfl rfl (by decide)

/-- C2 counterexample: `verifySignature` does raise.  With the header
absent, `signature.replace` is a method call on `undefined` and throws
a `TypeError`; with a present header whose stripped hex value is
shorter than the recomputed digest, `crypto.timingSafeEqual` throws a
`RangeError`.  Neither malformed input yields `false`. -/
theorem C2_counterexample :
    verifySignature "rawbody" none "secret" (fun _ _ => "aa")
        = .error .typeError ∧
    verifySignature "rawbody" (some "sha256=abc") "secret" (fun _ _ => "aa")
        = .error .rangeError ∧
    verifySignature "rawbody" none "secret" (fun _ _ => "aa") ≠ .ok false := by
  exact ⟨rfl, by decide, by decide⟩

/-- C2 amended: `verifySignature` never raises only on headers of the
correct digest length.  A missing header raises `TypeError`; a present
header whose prefix-stripped value differs in UTF-8 byte length from
the recomputed digest raises `RangeError`; when the lengths agree it
returns a boolean — string equality of stripped header and digest — so
an equal-length content mismatch yields `false`, not an exception. -/
theorem C2_verify_raise_characterization
    (payload secret : String) (hmac : String → String → String) (sig : String) :
    verifySignature payload none secret hmac = .error .typeError ∧
    ((String.mk (replaceFirst "sha256=".data sig.data)).utf8ByteSize
        = (hmac secret payload).utf8ByteSize →
      verifySignature payload (some sig) secret hmac
        = .ok ((String.mk (replaceFirst "sha256=".data sig.data)) == hmac secret payload)) ∧
    ((String.mk (replaceFirst "sha256=".data sig.data)).utf8ByteSize
        ≠ (hmac secret payload).utf8ByteSize →
      verifySignature payload (some sig) secret hmac = .error .rangeError) := by
  refine ⟨rfl, fun h => ?_, fun h => ?_⟩
  · simp [verifySignature, h]
  · simp only [verifySignature]
    rw [if_neg h]

/-- Witness for C2's amended statement at concrete headers of equal
and of differing length. -/
theorem C2_witness :
    verifySignature "body" (some "sha256=ab") "secret" (fun _ _ => "aa") = .ok false ∧
    verifySignature "body" (some "sha256=abc") "secret" (fun _ _ => "aa")
      = .error .rangeError := by
  constructor
  · rw [(C2_verify_raise_characterization "body" "secret" (fun _ _ => "aa") "sha256=ab").2.1
        (by decide)]
    decide
  · exact (C2_verify_raise_characterization "body" "secret" (fun _ _ => "aa") "sha256=abc").2.2
      (by decide)

/-- C3: for a user identity absent from the snapshot, `getSessionId`
returns the freshly generated id (which is never the empty string),
persists the snapshot extended by exactly the new entry, and the
reverse lookup of that id on the persisted mapping recovers the
original user.  The freshness hypothesis — the generated id does not
already occur as a value — is the generator's collision-freeness, which
the source provides probabilistically via `Math.random`, `Date.now`
and SHA-256. -/
theorem C3_resolveOrCreate_fresh_roundtrip
    (userId randomString timestamp : String) (hashHex : String → String)
    (sessions : Mapping)
    (habsent : Mapping.lookup sessions userId = none)
    (hfresh : generateSessionId hashHex userId randomString timestamp
                ∉ Mapping.values sessions) :
    getSessionId userId hashHex randomString timestamp (.ok ()) (.ok ()) (some sessions) =
      ⟨.ok (generateSessionId hashHex userId randomString timestamp),
       some (sessions ++ [(userId, generateSessionId hashHex userId randomString timestamp)]),
       true⟩ ∧
    generateSessionId hashHex userId randomString timestamp ≠ "" ∧
    reverseResolve
        (sessions ++ [(userId, generateSessionId hashHex userId randomString timestamp)])
        (some (generateSessionId hashHex userId randomString timestamp)) = some userId := by
  refine ⟨?_, generateSessionId_ne_empty hashHex userId randomString timestamp,
          reverseResolve_append_fresh sessions userId _ hfresh⟩
  unfold getSessionId readSessions downloadFile
  simp [habsent, jsFalsy, writeSessionsRemote,
        setKey_of_lookup_none sessions userId _ habsent]

/-- Witness for C3 on a store already holding an unrelated user. -/
theorem C3_witness :
    getSessionId "111" (fun _ => "h") "r" "t" (.ok ()) (.ok ()) (some [("222", "x")]) =
      ⟨.ok "r-t-h-whatsapp", some [("222", "x"), ("111", "r-t-h-whatsapp")], true⟩ ∧
    ("r-t-h-whatsapp" : String) ≠ "" ∧
    reverseResolve [("222", "x"), ("111", "r-t-h-whatsapp")] (some "r-t-h-whatsapp")
      = some "111" :=
  C3_resolveOrCreate_fresh_roundtrip "111" "r" "t" (fun _ => "h") [("222", "x")]
    (by decide) (by decide)

/-- C4: for a user identity already present in the snapshot (with the
non-empty session id every id generated by the system is —
`generateSessionId` always ends in `-whatsapp`), `getSessionId` returns
the stored id, invokes no write at all, and leaves the remote snapshot
untouched, whatever the storage outcomes would have been; repeated
calls therefore keep returning the same id on the same unchanged
store. -/
theorem C4_resolveOrCreate_idempotent
    (userId randomString timestamp : String) (hashHex : String → String)
    (writeOutcome uploadOutcome : Except JsError Unit)
    (sessions : Mapping) (v : String)
    (hpresent : Mapping.lookup sessions userId = some v) (hv : v ≠ "") :
    getSessionId userId hashHex randomString timestamp
        writeOutcome uploadOutcome (some sessions) =
      ⟨.ok v, some sessions, false⟩ := by
  unfold getSessionId readSessions downloadFile
  simp [hpresent, jsFalsy, hv]

/-- Witness for C4 at a concrete one-entry store. -/
theorem C4_witness :
    getSessionId "111" (fun _ => "h") "r" "t" (.ok ()) (.ok ())
        (some [("111", "r-t-h-whatsapp")]) =
      ⟨.ok "r-t-h-whatsapp", some [("111", "r-t-h-whatsapp")], false⟩ :=
  C4_resolveOrCreate_idempotent "111" "r" "t" (fun _ => "h") (.ok ()) (.ok ())
    [("111", "r-t-h-whatsapp")] "r-t-h-whatsapp" (by decide) (by decide)

/-- C5 counterexample: a failing Cloud Storage upload does not fail
anything.  `writeSessions` resolves successfully even when the upload
rejects with a 503 `ApiError`, and a full webhook request that mints a
new session while the upload fails still answers 200 — with the remote
snapshot left unwritten. -/
theorem C5_counterexample :
    writeSessions (.ok ()) (.error (.apiError 503)) = .ok () ∧
    (WAwebhook reqSigned envA wUpFail (some [])).response = some (.status 200 none) ∧
    (WAwebhook reqSigned envA wUpFail (some [])).remote = some [] := by
  decide

/-- C5 amended: upload failures are swallowed inside the store —
`uploadFile` and `writeSessions` each catch and only log, so
`writeSessions` resolves successfully for every write and upload
outcome, and the webhook request whose upload failed still succeeds
with 200. -/
theorem C5_store_swallows_upload_failures :
    (∀ writeOutcome uploadOutcome : Except JsError Unit,
        writeSessions writeOutcome uploadOutcome = .ok ()) ∧
    (∀ e : JsError,
        (WAwebhook reqSigned envA
            ⟨fun _ => "h", "r", "t", .ok (), .error e, .ok "reply",
             .ok (), .ok (), .ok (), .ok ()⟩
            (some [])).response = some (.status 200 none)) := by
  constructor
  · intro writeOutcome uploadOutcome
    cases writeOutcome <;> cases uploadOutcome <;> rfl
  · intro e
    rfl

/-- C6: when the remote `sessions.json` object does not exist, the
storage SDK rejects with an `ApiError` whose code is the number 404;
the `catch` of `readSessions` only recognizes the string `'ENOENT'`,
so the error is re-thrown instead of yielding the empty mapping,
`getSessionId` rejects, and the webhook answers 500. -/
theorem C6_missing_remote_object_propagates :
    readSessions none = .error (.apiError 404) ∧
    isEnoent (.apiError 404) = false ∧
    getSessionId "111" (fun _ => "h") "r" "t" (.ok ()) (.ok ()) none =
      ⟨.error (.apiError 404), none, false⟩ ∧
    (WAwebhook reqSigned envA wOk none).response = some (.status 500 none) := by
  decide

/-- C7 counterexample: with a verified text message whose reply
delivery succeeded (the trace shows the `transportReply` effect), a
failing read-receipt mark makes the handler answer 500, not 200: the
read-receipt `await` sits inside the same `try` as the load-bearing
steps. -/
theorem C7_counterexample :
    (WAwebhook reqSigned envA wReadFail (some [])).effects =
      [.storeDownload, .storeUpload, .aiCall "Hello" "r-t-h-whatsapp" "111",
       .transportReply "111" "reply", .transportRead "mid"] ∧
    (WAwebhook reqSigned envA wReadFail (some [])).response = some (.status 500 none) ∧
    (WAwebhook reqSigned envA wReadFail (some [])).response ≠ some (.status 200 none) := by
  decide

/-- C7 amended: a read-receipt failure is caught by the shared `catch`
and fails the whole request with 500 (only the two Telegram
notification posts are best-effort).  Stated for every request whose
steps up to and including the reply delivery succeeded. -/
theorem C7_read_receipt_failure_fails_request
    (req : Req) (env : Env) (w : World) (remote : Option Mapping)
    (msg : Message) (sid reply : String) (e : JsError)
    (hm : req.method = "POST") (hmsg : req.message = some msg)
    (ht : msg.type_ = "text")
    (hv : verifySignature req.rawBody req.signatureHeader env.appSecret env.hmacHex
            = .ok true)
    (hstore : (getSessionId msg.from_ w.hashHex w.randomString w.timestamp
                 w.writeOutcome w.uploadOutcome remote).result = .ok sid)
    (hai : w.ai = .ok reply) (hreply : w.replyOutcome = .ok ())
    (hread : w.readOutcome = .error e) :
    (WAwebhook req env w remote).response = some (.status 500 none) := by
  unfold WAwebhook
  simp [hm, hmsg, ht, hv, hstore, hai, hreply, hread]

/-- Witness for C7's amended statement on the concrete failing-receipt
world. -/
theorem C7_witness :
    (WAwebhook reqSigned envA wReadFail (some [])).response
      = some (.status 500 none) :=
  C7_read_receipt_failure_fails_request reqSigned envA wReadFail (some [])
    msgA "r-t-h-whatsapp" "reply" (.generic "socket hang up")
    rfl rfl rfl (by decide) (by decide) rfl rfl rfl

/-- C8 counterexample: the notification endpoint does not address the
resolved user.  With the store mapping user `111` to session `sid` and
the configured business number `999`, the templated message's
destination is `999`, while the reverse lookup resolved `111`; the
resolved identity only appears as the third template parameter. -/
theorem C8_counterexample :
    (newLead (some "sid") "n" "c" "sf" "pd" "loc" "999" (some [("111", "sid")])).sent =
      some ⟨"999", "new_lead_notification", "ru",
            [some "n", some "c", some "111", some "sf", some "pd", some "loc"]⟩ ∧
    reverseResolve [("111", "sid")] (some "sid") = some "111" ∧
    (newLead (some "sid") "n" "c" "sf" "pd" "loc" "999"
        (some [("111", "sid")])).sent.map TemplateMsg.to_ ≠ some "111" := by
  decide

/-- C8 amended: whenever the snapshot loads, the endpoint sends the
templated notification to the configured business phone number
(`process.env.PHONE_NUMBER`), embedding the reverse-resolved user
identity (or JS `undefined` when unresolved) as the third template
body parameter — the resolved identity is never the destination. -/
theorem C8_notification_destination_is_configured_number
    (sessionId : Option String)
    (name company surface period location envPhoneNumber : String)
    (remote : Option Mapping) (obj : Mapping)
    (h : readSessions remote = .ok obj) :
    newLead sessionId name company surface period location envPhoneNumber remote =
      ⟨"Your request has been successfully created, please wait, we will contact you soon.",
       some ⟨envPhoneNumber, "new_lead_notification", "ru",
             [some name, some company, reverseResolve obj sessionId,
              some surface, some period, some location]⟩⟩ := by
  unfold newLead
  simp [h]

/-- Witness for C8's amended statement on a one-entry store. -/
theorem C8_witness :
    newLead (some "sid") "n" "c" "sf" "pd" "loc" "999" (some [("111", "sid")]) =
      ⟨"Your request has been successfully created, please wait, we will contact you soon.",
       some ⟨"999", "new_lead_notification", "ru",
             [some "n", some "c", some "111", some "sf", some "pd", some "loc"]⟩⟩ :=
  C8_notification_destination_is_configured_number (some "sid") "n" "c" "sf" "pd"
    "loc" "999" (some [("111", "sid")]) [("111", "sid")] rfl

/-- C9: the reply sanitization of the webhook — `replace(/\\/g, '')`
then `trim()` then `replace(/^["']|["']$/g, '')` — equals, for every
string, the spec's description: remove every backslash, trim
whitespace, then drop one leading quote character if present and one
trailing quote character if present, and nothing else. -/
theorem C9_sanitize_matches_spec (s : String) : sanitize s = sanitizeSpec s := by
  unfold sanitize sanitizeSpec
  rw [stripQuotesRegex_eq_spec]

/-- C10: a request whose method is neither POST nor GET falls through
both dispatch branches: no `res` method is ever called (no response of
any status), no effect is produced, and the store is untouched. -/
theorem C10_unknown_method_gets_no_response
    (req : Req) (env : Env) (w : World) (remote : Option Mapping)
    (h1 : req.method ≠ "POST") (h2 : req.method ≠ "GET") :
    WAwebhook req env w remote = ⟨none, [], remote⟩ := by
  unfold WAwebhook
  simp [h1, h2]

/-- Witness for C10 at a concrete PUT request. -/
theorem C10_witness :
    WAwebhook ⟨"PUT", some msgA, "pnid", "raw", some "sha256=aa", none, none, none⟩
        envA wOk (some []) = ⟨none, [], some []⟩ :=
  C10_unknown_method_gets_no_response _ envA wOk (some []) (by decide) (by decide)
